import Mathlib

/-!
Verification of the lap-monitoring core of the `monitor` repository.

Shallow embedding of:
- `src/session_manager.py` (`SessionManager`, `SessionState`)
- `src/telemetry_loop.py` (`TelemetryLoop.run_once`, `TelemetryLoop.run`)
- the `OpponentTracker` component, whose implementation file
  (`src/opponent_tracker.py`) is absent from the sources; it is modelled
  from the specification (spec §4.1, §4.3), cross-checked against
  `tests/test_opponent_tracker.py`.

Python dictionaries with `.get(key, default)` access are embedded as
structures of `Option`-typed fields with explicit defaulting; Python
floats carry no arithmetic here beyond pass-through and comparison, so
they are embedded as `Rat`; lap indices are `Int`.
-/

namespace Monitor

/-- Telemetry sample as consumed by `SessionManager`: a Python dict; only
the keys the code reads are carried, each `Option`al to model `.get` with
a default on a missing key. -/
structure Telemetry where
  lap : Option Int := none
  lap_time : Option Rat := none
  sector1_time : Option Rat := none
  sector2_time : Option Rat := none
  sector3_time : Option Rat := none
  deriving Repr, DecidableEq

/-- Session states (`SessionState` enum in `src/session_manager.py`). -/
inductive SessionState where
  | idle
  | detected
  | logging
  | paused
  | error
  deriving Repr, DecidableEq

/-- Events dict returned by `SessionManager.update`: `{}` or
`{'lap_completed': True}`; callers test it with
`events.get('lap_completed')`, so it is one boolean. -/
structure Events where
  lap_completed : Bool := false
  deriving Repr, DecidableEq

/-- Lap summary dict built by `SessionManager.get_lap_summary` for a
non-empty buffer; the empty-buffer `{}` result is `Option.none` at the
call site. -/
structure LapSummary where
  lap : Int
  lap_time : Rat
  sector1_time : Rat
  sector2_time : Rat
  sector3_time : Rat
  samples_count : Nat
  deriving Repr, DecidableEq

/-- State of a `SessionManager` (`src/session_manager.py`). -/
structure SessionManager where
  state : SessionState
  current_lap : Int
  current_session_id : Option String
  lap_samples : List Telemetry
  deriving Repr, DecidableEq

/-- `SessionManager.__init__`. -/
def SessionManager.init : SessionManager :=
  { state := SessionState.idle
    current_lap := 0
    current_session_id := none
    lap_samples := [] }

/-- `SessionManager.update`: detect a lap change, then always store the
incoming lap number. -/
def SessionManager.update (sm : SessionManager) (telemetry : Telemetry) :
    SessionManager × Events :=
  let new_lap := telemetry.lap.getD 0
  let events : Events :=
    { lap_completed := decide (new_lap ≠ sm.current_lap ∧ 0 < sm.current_lap) }
  ({ sm with current_lap := new_lap }, events)

/-- `SessionManager.add_sample`: append (a copy of) the sample to the
current lap buffer. -/
def SessionManager.add_sample (sm : SessionManager) (telemetry : Telemetry) :
    SessionManager :=
  { sm with lap_samples := sm.lap_samples ++ [telemetry] }

/-- `SessionManager.get_lap_data`: a copy of the buffered samples. -/
def SessionManager.get_lap_data (sm : SessionManager) : List Telemetry :=
  sm.lap_samples

/-- `SessionManager.clear_lap_buffer`. -/
def SessionManager.clear_lap_buffer (sm : SessionManager) : SessionManager :=
  { sm with lap_samples := [] }

/-- `SessionManager.get_lap_summary`: `{}` on an empty buffer, otherwise
times from the last buffered sample plus the sample count. -/
def SessionManager.get_lap_summary (sm : SessionManager) : Option LapSummary :=
  match sm.lap_samples.getLast? with
  | none => none
  | some last_sample =>
      some
        { lap := sm.current_lap
          lap_time := last_sample.lap_time.getD 0
          sector1_time := last_sample.sector1_time.getD 0
          sector2_time := last_sample.sector2_time.getD 0
          sector3_time := last_sample.sector3_time.getD 0
          samples_count := sm.lap_samples.length }

/-- One recorded invocation of the `on_lap_complete` callback with the
arguments it received. -/
structure CallbackCall where
  lap_data : List Telemetry
  lap_summary : Option LapSummary
  deriving Repr, DecidableEq

/-- Per-tick status dict built by `TelemetryLoop.run_once`. -/
structure TickStatus where
  state : SessionState
  process_detected : Bool
  telemetry_available : Bool
  lap : Int
  samples_buffered : Nat
  lap_completed : Bool
  error : Option String := none
  deriving Repr, DecidableEq

/-- State of a `TelemetryLoop` (`src/telemetry_loop.py`): control flags,
the owned `SessionManager`, and whether an `on_lap_complete` callback was
configured (`self.on_lap_complete is not None`). The `ProcessMonitor` and
the telemetry reader are external collaborators; their answers for a tick
are inputs to `run_once`. -/
structure TelemetryLoop where
  running : Bool
  paused : Bool
  sm : SessionManager
  has_callback : Bool
  deriving Repr, DecidableEq

/-- Idle-to-Detected transition performed once the process is seen
(`src/telemetry_loop.py` lines 112-113). -/
def SessionManager.detect (sm : SessionManager) : SessionManager :=
  if sm.state = SessionState.idle then
    { sm with state := SessionState.detected }
  else sm

/-- Detected-to-Logging transition with fresh session id, performed once
telemetry becomes available (`src/telemetry_loop.py` lines 127-129). -/
def SessionManager.start_logging (sm : SessionManager)
    (fresh_session_id : String) : SessionManager :=
  if sm.state = SessionState.detected then
    { sm with state := SessionState.logging,
              current_session_id := some fresh_session_id }
  else sm

/-- Body of the try block of `TelemetryLoop.run_once` after a successful
read (`src/telemetry_loop.py` lines 136-159): session update, lap
completion handling with the optional callback, sample append, status
update. Returns the new session manager, the updated status and the
callback invocations. -/
def TelemetryLoop.handle_sample (loop : TelemetryLoop) (sm : SessionManager)
    (status : TickStatus) (telemetry : Telemetry) :
    SessionManager × TickStatus × List CallbackCall :=
  let upd := sm.update telemetry
  let sm := upd.1
  let step :=
    if upd.2.lap_completed then
      let status := { status with lap_completed := true }
      let lap_data := sm.get_lap_data
      let lap_summary := sm.get_lap_summary
      let calls : List CallbackCall :=
        if loop.has_callback && decide (0 < lap_data.length) then
          [{ lap_data := lap_data, lap_summary := lap_summary }]
        else []
      (sm.clear_lap_buffer, status, calls)
    else (sm, status, ([] : List CallbackCall))
  let sm := step.1.add_sample telemetry
  let status := { step.2.1 with
                    state := sm.state
                    lap := sm.current_lap
                    samples_buffered := sm.lap_samples.length }
  (sm, status, step.2.2)

/-- `TelemetryLoop.run_once`, one iteration of the polling loop. Inputs of
the tick supplied by external collaborators:
`process_running` is `self.process_monitor.is_running()`,
`telemetry_is_available` is `self.telemetry_reader.is_available()`,
`read_result` is `self.telemetry_reader.read()` (`Except.error` embeds an
exception raised during the read), and `fresh_session_id` stands for the
time-based `generate_session_id()`. Returns `none` when not running,
otherwise the new loop state, the status dict, and the list of callback
invocations made during the tick. -/
def TelemetryLoop.run_once (loop : TelemetryLoop) (process_running : Bool)
    (telemetry_is_available : Bool) (read_result : Except String Telemetry)
    (fresh_session_id : String) :
    Option (TelemetryLoop × TickStatus × List CallbackCall) :=
  if !loop.running then none else
  let status : TickStatus :=
    { state := loop.sm.state
      process_detected := process_running
      telemetry_available := false
      lap := loop.sm.current_lap
      samples_buffered := loop.sm.lap_samples.length
      lap_completed := false
      error := none }
  if !process_running then
    -- No process -> go to IDLE (clearing the buffer on the transition)
    let sm :=
      if loop.sm.state ≠ SessionState.idle then
        { loop.sm with state := SessionState.idle, lap_samples := [] }
      else loop.sm
    some ({ loop with sm := sm }, status, [])
  else
  -- Process detected
  let sm := loop.sm.detect
  -- If paused, don't collect data
  if loop.paused then some ({ loop with sm := sm }, status, [])
  else
  -- Check if telemetry is available
  if !telemetry_is_available then some ({ loop with sm := sm }, status, [])
  else
  let status := { status with telemetry_available := true }
  -- Start logging if we haven't already
  let sm := sm.start_logging fresh_session_id
  -- Read telemetry (the try block; a raised exception is Except.error)
  match read_result with
  | Except.error e =>
      some ({ loop with sm := { sm with state := SessionState.error } },
            { status with state := SessionState.error, error := some e }, [])
  | Except.ok telemetry =>
      let r := loop.handle_sample sm status telemetry
      some ({ loop with sm := r.1 }, r.2.1, r.2.2)

/-- Inputs one tick of the loop receives from its external collaborators
(process monitor answer, telemetry availability, read outcome, fresh
session id). -/
structure TickInput where
  process_running : Bool
  telemetry_is_available : Bool
  read_result : Except String Telemetry
  fresh_session_id : String
  deriving Repr

/-- `TelemetryLoop.run` over a finite schedule of tick inputs: the
`while self._running` loop calls `run_once` once per tick as long as the
loop is running (the inter-tick sleep has no observable effect here).
Returns the final loop state and the per-tick results. -/
def TelemetryLoop.run_steps (loop : TelemetryLoop) :
    List TickInput → TelemetryLoop × List (TickStatus × List CallbackCall)
  | [] => (loop, [])
  | i :: rest =>
      match loop.run_once i.process_running i.telemetry_is_available
          i.read_result i.fresh_session_id with
      | none => (loop, [])
      | some (loop_next, st, calls) =>
          let tail := loop_next.run_steps rest
          (tail.1, (st, calls) :: tail.2)

/-- Control-type tag of a vehicle sample (spec §4.3: one of local, AI,
remote, replay, none; the tests map these to mControl -1..3). -/
inductive Control where
  | nobody
  | local_player
  | ai
  | remote
  | replay
  deriving Repr, DecidableEq

/-- Raw (un-normalized) multiplayer sample as handed to
`update_opponent`: a dict, every field possibly missing. Only the fields
the Opponent Tracker consumes are carried. -/
structure RawSample where
  driver_name : Option String := none
  control : Option Control := none
  lap : Option Int := none
  lap_distance : Option Rat := none
  lap_time : Option Rat := none
  last_lap_time : Option Rat := none
  speed : Option Rat := none
  throttle : Option Rat := none
  brake : Option Rat := none
  steering : Option Rat := none
  track_length : Option Rat := none
  deriving Repr, DecidableEq

/-- Modelled from the spec: the canonical record produced by the Sample
Normalizer (spec §4.1) — the normalizer lives in code absent from the
sources, so its output schema follows the spec: every canonical field
total, numeric defaults 0.0, string default empty; throttle/brake/steering
scaled into percentages. `track_length` stays optional so the tracker can
fall back to its default (spec §4.3 step 4: "a supplied or default track
length"). -/
structure NormSample where
  driver_name : String
  control : Control
  lap : Int
  lap_distance : Rat
  lap_time : Rat
  last_lap_time : Rat
  speed : Rat
  throttle_pct : Rat
  brake_pct : Rat
  steer_pct : Rat
  track_length : Option Rat
  deriving Repr, DecidableEq

/-- Modelled from the spec: the Sample Normalizer (spec §4.1), whose
implementation file is absent from the sources. Total function: defaults
for missing fields, fractional throttle/brake/steering scaled ×100, all
other consumed fields pass through. -/
def normalize (raw : RawSample) : NormSample :=
  { driver_name := raw.driver_name.getD ""
    control := raw.control.getD Control.nobody
    lap := raw.lap.getD 0
    lap_distance := raw.lap_distance.getD 0
    lap_time := raw.lap_time.getD 0
    last_lap_time := raw.last_lap_time.getD 0
    speed := raw.speed.getD 0
    throttle_pct := 100 * raw.throttle.getD 0
    brake_pct := 100 * raw.brake.getD 0
    steer_pct := 100 * raw.steering.getD 0
    track_length := raw.track_length }

/-- Modelled from the spec: per-driver state of the Opponent Tracker
(spec §3 `OpponentEntry`) — `src/opponent_tracker.py` is absent from the
sources. -/
structure OpponentEntry where
  current_lap : Int
  samples : List NormSample
  seen_lap_start : Bool
  fastest_lap_time : Option Rat
  deriving Repr, DecidableEq

/-- Modelled from the spec: the transient `CompletedLap` value
(spec §3). -/
structure CompletedLap where
  driver_name : String
  lap_number : Int
  lap_time : Rat
  samples : List NormSample
  is_fastest : Bool
  deriving Repr, DecidableEq

/-- Modelled from the spec: `OpponentTracker` state (spec §4.3) —
entries keyed by driver identity plus the two configuration flags. -/
structure OpponentTracker where
  opponents : List (String × OpponentEntry)
  track_remote_only : Bool := true
  track_ai : Bool := false
  deriving Repr, DecidableEq

/-- Modelled from the spec: default track length used when the sample
supplies none (spec §4.3 step 4 leaves the constant to the
implementation; the spec's scenarios use 5000). -/
def default_track_length : Rat := 5000

/-- Modelled from the spec: lap-start detection (spec §3 invariant:
`seen_lap_start` becomes true only when a sample's lap-distance falls
within 5% of total track length measured from the start line; the tests
place 249.9 inside and 250.0 outside on a 5000 m track, so the bound is
strict). -/
def NormSample.near_lap_start (s : NormSample) : Bool :=
  decide (s.lap_distance < 5 / 100 * s.track_length.getD default_track_length)

/-- Modelled from the spec: `OpponentTracker._should_track` (spec §4.3:
remote vehicles are always tracked; AI only if `track_ai`; the local
player and replay entities never, regardless of configuration). -/
def OpponentTracker.should_track (tr : OpponentTracker) (control : Control) :
    Bool :=
  match control with
  | Control.remote => true
  | Control.ai => tr.track_ai
  | _ => false

/-- Assoc-list update backing a Python dict assignment: replace the value
in place if the key is present, append it otherwise. -/
def set_entry_list (name : String) (entry : OpponentEntry) :
    List (String × OpponentEntry) → List (String × OpponentEntry)
  | [] => [(name, entry)]
  | (a, b) :: rest =>
      if a = name then (name, entry) :: rest
      else (a, b) :: set_entry_list name entry rest

/-- Replace (or lazily create) the entry for a driver. -/
def OpponentTracker.set_entry (tr : OpponentTracker) (name : String)
    (entry : OpponentEntry) : OpponentTracker :=
  { tr with opponents := set_entry_list name entry tr.opponents }

/-- Modelled from the spec: `OpponentTracker.update_opponent`
(spec §4.3 steps 1–7), absent from the sources. The timestamp argument is
accepted as in the interface; the spec assigns it no role in lap
detection. Lap-start detection (step 4) applies to the buffering epoch
the sample belongs to: a boundary-crossing sample (step 5, exactly +1)
starts the new epoch, whose `seen_lap_start` is recomputed from that
sample's own lap-distance; emission is decided from the flag of the epoch
just ended. -/
def OpponentTracker.update_opponent (tr : OpponentTracker) (raw : RawSample)
    (timestamp : Rat) : OpponentTracker × List CompletedLap :=
  let _ := timestamp
  if !tr.should_track (raw.control.getD Control.nobody) then (tr, [])
  else
    let s := normalize raw
    let entry := (tr.opponents.lookup s.driver_name).getD
      { current_lap := s.lap
        samples := []
        seen_lap_start := false
        fastest_lap_time := none }
    if s.lap = entry.current_lap + 1 then
      -- genuine completion candidate for the just-finished lap
      let emitted : Option CompletedLap :=
        if entry.seen_lap_start then
          match entry.fastest_lap_time with
          | none =>
              some { driver_name := s.driver_name
                     lap_number := entry.current_lap
                     lap_time := s.last_lap_time
                     samples := entry.samples
                     is_fastest := true }
          | some fastest =>
              if s.last_lap_time < fastest then
                some { driver_name := s.driver_name
                       lap_number := entry.current_lap
                       lap_time := s.last_lap_time
                       samples := entry.samples
                       is_fastest := true }
              else none
        else none
      let new_fastest :=
        match emitted with
        | some cl => some cl.lap_time
        | none => entry.fastest_lap_time
      -- reset the entry, then append the triggering sample (steps 5–6)
      let entry :=
        { entry with
            samples := [s]
            current_lap := s.lap
            seen_lap_start := s.near_lap_start
            fastest_lap_time := new_fastest }
      (tr.set_entry s.driver_name entry, emitted.toList)
    else
      -- resynchronization: no completion, buffer kept, lap index adopted
      let entry :=
        { entry with
            current_lap := s.lap
            seen_lap_start := entry.seen_lap_start || s.near_lap_start
            samples := entry.samples ++ [s] }
      (tr.set_entry s.driver_name entry, [])

/-- Modelled from the spec: `OpponentTracker.reset` clears all entries. -/
def OpponentTracker.reset (tr : OpponentTracker) : OpponentTracker :=
  { tr with opponents := [] }

/-- Modelled from the spec: `OpponentTracker.get_opponent_count`. -/
def OpponentTracker.get_opponent_count (tr : OpponentTracker) : Nat :=
  tr.opponents.length

/-- A fresh tracker with the default configuration. -/
def OpponentTracker.init : OpponentTracker :=
  { opponents := [] }

/-! ## Helper lemmas -/

theorem lookup_set_entry_list (name : String) (e : OpponentEntry) :
    ∀ l : List (String × OpponentEntry),
      (set_entry_list name e l).lookup name = some e := by
  intro l
  induction l with
  | nil => simp [set_entry_list, List.lookup]
  | cons p rest ih =>
      obtain ⟨a, b⟩ := p
      by_cases h : a = name
      · simp only [set_entry_list, if_pos h, List.lookup, beq_self_eq_true]
      · have hb : (name == a) = false := beq_eq_false_iff_ne.mpr (Ne.symm h)
        simp only [set_entry_list, if_neg h, List.lookup, hb, ih]

theorem lookup_set_entry (tr : OpponentTracker) (name : String)
    (e : OpponentEntry) :
    (tr.set_entry name e).opponents.lookup name = some e :=
  lookup_set_entry_list name e tr.opponents

theorem update_opponent_resync_eq (tr : OpponentTracker) (raw : RawSample)
    (ts : Rat) (entry : OpponentEntry)
    (htrack : tr.should_track (normalize raw).control = true)
    (hentry : tr.opponents.lookup (normalize raw).driver_name = some entry)
    (hlap : (normalize raw).lap ≠ entry.current_lap + 1) :
    tr.update_opponent raw ts =
      (tr.set_entry (normalize raw).driver_name
        { entry with
            current_lap := (normalize raw).lap
            seen_lap_start :=
              entry.seen_lap_start || (normalize raw).near_lap_start
            samples := entry.samples ++ [normalize raw] }, []) := by
  have hc : tr.should_track (raw.control.getD Control.nobody) = true := htrack
  unfold OpponentTracker.update_opponent
  simp only [hc, Bool.not_true, Bool.false_eq_true, if_false, hentry,
    Option.getD_some, hlap, ite_false]

theorem update_opponent_partial_eq (tr : OpponentTracker) (raw : RawSample)
    (ts : Rat) (entry : OpponentEntry)
    (htrack : tr.should_track (normalize raw).control = true)
    (hentry : tr.opponents.lookup (normalize raw).driver_name = some entry)
    (hlap : (normalize raw).lap = entry.current_lap + 1)
    (hseen : entry.seen_lap_start = false) :
    tr.update_opponent raw ts =
      (tr.set_entry (normalize raw).driver_name
        { entry with
            samples := [normalize raw]
            current_lap := (normalize raw).lap
            seen_lap_start := (normalize raw).near_lap_start }, []) := by
  have hc : tr.should_track (raw.control.getD Control.nobody) = true := htrack
  unfold OpponentTracker.update_opponent
  simp only [hc, Bool.not_true, Bool.false_eq_true, if_false, hentry,
    Option.getD_some, hlap, ite_true, hseen, Option.toList]

/-! ## Concrete scenario inputs (from the spec's scenarios and the
repository's tests) -/

/-- Scenario E first sample: remote driver at lap 1, distance 0. -/
def rawE1 : RawSample :=
  { driver_name := some "Jumpy", control := some Control.remote,
    lap := some 1, lap_distance := some 0, track_length := some 5000 }

/-- Scenario E jump sample: lap index jumps from 1 to 3. -/
def rawE3 : RawSample :=
  { driver_name := some "Jumpy", control := some Control.remote,
    lap := some 3, lap_distance := some 50, last_lap_time := some 95,
    track_length := some 5000 }

/-- Tracker that has absorbed `rawE1`. -/
def trE : OpponentTracker := (OpponentTracker.init.update_opponent rawE1 0).1

/-- The entry `trE` holds for the scenario E driver. -/
def entryE : OpponentEntry :=
  { current_lap := 1, samples := [normalize rawE1],
    seen_lap_start := true, fastest_lap_time := none }

/-- Scenario A first sample: mid-race join at lap 8, distance 3750 of a
5000 m track (never near the start line). -/
def rawA1 : RawSample :=
  { driver_name := some "Mid", control := some Control.remote,
    lap := some 8, lap_distance := some 3750, track_length := some 5000 }

/-- Scenario A boundary sample: lap flips to 9, reported lap time 95. -/
def rawA2 : RawSample :=
  { driver_name := some "Mid", control := some Control.remote,
    lap := some 9, lap_distance := some 50, last_lap_time := some 95,
    track_length := some 5000 }

/-- Tracker that has absorbed `rawA1`. -/
def trA : OpponentTracker := (OpponentTracker.init.update_opponent rawA1 0).1

/-- The entry `trA` holds for the scenario A driver: the lap start was
never seen. -/
def entryA : OpponentEntry :=
  { current_lap := 8, samples := [normalize rawA1],
    seen_lap_start := false, fastest_lap_time := none }

/-! ## Claim theorems -/

/-- C1: `SessionManager.update` signals `lap_completed` iff the sample's
lap number differs from the stored `current_lap` and the stored
`current_lap` was greater than zero; in every case `current_lap` is then
set to the sample's lap number. Feeding the lap sequence [1, 1, 2] from a
fresh manager signals completion only on the third call. -/
theorem session_update_signals_lap_change :
    (∀ (sm : SessionManager) (t : Telemetry),
      ((sm.update t).2.lap_completed = true ↔
        t.lap.getD 0 ≠ sm.current_lap ∧ 0 < sm.current_lap) ∧
      (sm.update t).1.current_lap = t.lap.getD 0) ∧
    ((SessionManager.init.update { lap := some 1 }).2.lap_completed = false ∧
      ((SessionManager.init.update { lap := some 1 }).1.update
          { lap := some 1 }).2.lap_completed = false ∧
      (((SessionManager.init.update { lap := some 1 }).1.update
          { lap := some 1 }).1.update
          { lap := some 2 }).2.lap_completed = true) := by
  refine ⟨fun sm t => ⟨?_, rfl⟩, by decide⟩
  simp [SessionManager.update]

/-- C2: for a tracked entity with an existing entry, an incoming lap
number that is not exactly `current_lap + 1` never returns a
`CompletedLap`; the entry's `current_lap` is updated to the incoming
value and the buffer keeps all previously buffered samples (the incoming
sample is appended, nothing is cleared) and the fastest time is
untouched. -/
theorem opponent_non_successor_lap_no_completion (tr : OpponentTracker)
    (raw : RawSample) (ts : Rat) (entry : OpponentEntry)
    (htrack : tr.should_track (normalize raw).control = true)
    (hentry : tr.opponents.lookup (normalize raw).driver_name = some entry)
    (hlap : (normalize raw).lap ≠ entry.current_lap + 1) :
    (tr.update_opponent raw ts).2 = [] ∧
    ((tr.update_opponent raw ts).1.opponents.lookup
        (normalize raw).driver_name).map
        (fun e => (e.current_lap, e.samples, e.fastest_lap_time)) =
      some ((normalize raw).lap, entry.samples ++ [normalize raw],
        entry.fastest_lap_time) := by
  rw [update_opponent_resync_eq tr raw ts entry htrack hentry hlap]
  exact ⟨rfl, by rw [lookup_set_entry]; rfl⟩

/-- C2 witness: opponent lap sequence [1, 1, 3]; the jump from 1 to 3
emits nothing, `current_lap` becomes 3 and the buffered samples
survive. -/
theorem opponent_non_successor_lap_no_completion_witness :
    (trE.update_opponent rawE3 2).2 = [] ∧
    ((trE.update_opponent rawE3 2).1.opponents.lookup
        (normalize rawE3).driver_name).map
        (fun e => (e.current_lap, e.samples, e.fastest_lap_time)) =
      some ((normalize rawE3).lap, entryE.samples ++ [normalize rawE3],
        entryE.fastest_lap_time) :=
  opponent_non_successor_lap_no_completion trE rawE3 2 entryE rfl
    (by norm_num [trE, rawE1, rawE3, entryE, normalize, OpponentTracker.init,
      OpponentTracker.update_opponent, OpponentTracker.should_track,
      OpponentTracker.set_entry, set_entry_list, NormSample.near_lap_start,
      default_track_length, List.lookup])
    (by decide)

/-- C3: for a tracked entity with an existing entry observed at lap index
exactly `current_lap + 1`, a `CompletedLap` is returned only if the
entry's `seen_lap_start` flag was true for the lap's buffering epoch;
when `seen_lap_start` is false the returned list is empty, yet the buffer
is still cleared (only the boundary-crossing sample itself remains, as
the first sample of the new lap) and `current_lap` still advances to the
new value, with the fastest time untouched. -/
theorem opponent_partial_lap_discarded (tr : OpponentTracker)
    (raw : RawSample) (ts : Rat) (entry : OpponentEntry)
    (htrack : tr.should_track (normalize raw).control = true)
    (hentry : tr.opponents.lookup (normalize raw).driver_name = some entry)
    (hsucc : (normalize raw).lap = entry.current_lap + 1) :
    ((tr.update_opponent raw ts).2 ≠ [] → entry.seen_lap_start = true) ∧
    (entry.seen_lap_start = false →
      (tr.update_opponent raw ts).2 = [] ∧
      ((tr.update_opponent raw ts).1.opponents.lookup
          (normalize raw).driver_name).map
          (fun e => (e.current_lap, e.samples, e.fastest_lap_time)) =
        some ((normalize raw).lap, [normalize raw],
          entry.fastest_lap_time)) := by
  constructor
  · intro hne
    by_contra hfalse
    have hseen : entry.seen_lap_start = false := by
      cases h : entry.seen_lap_start
      · rfl
      · exact absurd h hfalse
    rw [update_opponent_partial_eq tr raw ts entry htrack hentry hsucc hseen]
      at hne
    exact hne rfl
  · intro hseen
    rw [update_opponent_partial_eq tr raw ts entry htrack hentry hsucc hseen]
    exact ⟨rfl, by rw [lookup_set_entry]; rfl⟩

/-- C3 witness: spec Scenario A — opponent first observed at lap 8,
distance 3750 on a 5000 m track (never near the start), lap flips to 9
with reported lap time 95.0: the emitted list is empty, the old buffer is
gone and `current_lap` becomes 9. -/
theorem opponent_partial_lap_discarded_witness :
    (((trA.update_opponent rawA2 1).2 ≠ [] → entryA.seen_lap_start = true) ∧
      (entryA.seen_lap_start = false →
        (trA.update_opponent rawA2 1).2 = [] ∧
        ((trA.update_opponent rawA2 1).1.opponents.lookup
            (normalize rawA2).driver_name).map
            (fun e => (e.current_lap, e.samples, e.fastest_lap_time)) =
          some ((normalize rawA2).lap, [normalize rawA2],
            entryA.fastest_lap_time))) ∧
    entryA.seen_lap_start = false ∧
    (trA.update_opponent rawA2 1).2 = [] :=
  have main := opponent_partial_lap_discarded trA rawA2 1 entryA rfl
    (by norm_num [trA, rawA1, rawA2, entryA, normalize, OpponentTracker.init,
      OpponentTracker.update_opponent, OpponentTracker.should_track,
      OpponentTracker.set_entry, set_entry_list, NormSample.near_lap_start,
      default_track_length, List.lookup])
    (by decide)
  ⟨main, by decide, (main.2 (by decide)).1⟩

/-- C9: `SessionManager.get_lap_summary` returns the empty record on an
empty buffer; on a non-empty buffer its lap time and sector times come
from the last buffered sample and `samples_count` is the buffer length. -/
theorem get_lap_summary_from_last_sample (sm : SessionManager) :
    (sm.lap_samples = [] → sm.get_lap_summary = none) ∧
    (∀ last, sm.lap_samples.getLast? = some last →
      sm.get_lap_summary = some
        { lap := sm.current_lap
          lap_time := last.lap_time.getD 0
          sector1_time := last.sector1_time.getD 0
          sector2_time := last.sector2_time.getD 0
          sector3_time := last.sector3_time.getD 0
          samples_count := sm.lap_samples.length }) := by
  constructor
  · intro h
    simp [SessionManager.get_lap_summary, h]
  · intro last h
    simp [SessionManager.get_lap_summary, h]

/-- C9 witness: the two cases of `get_lap_summary_from_last_sample`
evaluated on concrete managers. -/
theorem get_lap_summary_from_last_sample_witness :
    SessionManager.init.get_lap_summary = none ∧
    ({ SessionManager.init with
        lap_samples := [{ lap_time := some 7 }] } : SessionManager).get_lap_summary =
      some { lap := 0, lap_time := 7, sector1_time := 0, sector2_time := 0,
             sector3_time := 0, samples_count := 1 } := by
  refine ⟨(get_lap_summary_from_last_sample SessionManager.init).1 rfl, ?_⟩
  have h := (get_lap_summary_from_last_sample
      { SessionManager.init with lap_samples := [{ lap_time := some 7 }] }).2
      { lap_time := some 7 } (by decide)
  rw [h]
  decide

/-- C6: on every tick where the process-presence check returns false, the
session state becomes Idle from whatever state it was in, the lap sample
buffer is cleared whenever the state was not already Idle (and left alone
when it was), and the tick ends with no telemetry read or sample append:
no callback fires, the buffer never grows and the current lap is
unchanged. -/
theorem run_once_no_process_goes_idle (loop : TelemetryLoop) (avail : Bool)
    (rr : Except String Telemetry) (sid : String)
    (hrun : loop.running = true) :
    ∃ l' st, loop.run_once false avail rr sid = some (l', st, []) ∧
      l'.sm.state = SessionState.idle ∧
      (loop.sm.state ≠ SessionState.idle → l'.sm.lap_samples = []) ∧
      (loop.sm.state = SessionState.idle →
        l'.sm.lap_samples = loop.sm.lap_samples) ∧
      l'.sm.current_lap = loop.sm.current_lap ∧
      st.process_detected = false := by
  unfold TelemetryLoop.run_once
  simp only [hrun, Bool.not_true, Bool.false_eq_true, if_false, Bool.not_false,
    if_true]
  refine ⟨_, _, rfl, ?_, ?_, ?_, ?_, rfl⟩ <;>
    by_cases hst : loop.sm.state = SessionState.idle <;>
      simp [hst]

/-- C6 witness: `run_once_no_process_goes_idle` on a running loop that was
logging lap 3 with one buffered sample. -/
theorem run_once_no_process_goes_idle_witness :
    ∃ l' st,
      TelemetryLoop.run_once
        { running := true, paused := false, has_callback := false,
          sm := { state := SessionState.logging, current_lap := 3,
                  current_session_id := none,
                  lap_samples := [{ lap := some 3 }] } }
        false true (Except.ok { lap := some 3 }) "sid" = some (l', st, []) ∧
      l'.sm.state = SessionState.idle ∧
      (SessionState.logging ≠ SessionState.idle → l'.sm.lap_samples = []) ∧
      (SessionState.logging = SessionState.idle →
        l'.sm.lap_samples = [{ lap := some 3 }]) ∧
      l'.sm.current_lap = 3 ∧
      st.process_detected = false :=
  run_once_no_process_goes_idle
    { running := true, paused := false, has_callback := false,
      sm := { state := SessionState.logging, current_lap := 3,
              current_session_id := none,
              lap_samples := [{ lap := some 3 }] } }
    true (Except.ok { lap := some 3 }) "sid" rfl

/-- C8: on every tick where the process is present, the loop is not
paused and the telemetry source is unavailable, the tick returns a status
with `telemetry_available = false` and performs no read (the read outcome
is irrelevant): no sample is appended, the lap buffer and current lap are
unchanged, no callback is invoked, and the session state is not set to
Error (it moves from Idle to Detected or stays what it was). -/
theorem run_once_telemetry_unavailable_skips_sampling (loop : TelemetryLoop)
    (rr : Except String Telemetry) (sid : String)
    (hrun : loop.running = true) (hp : loop.paused = false) :
    ∃ l' st, loop.run_once true false rr sid = some (l', st, []) ∧
      st.telemetry_available = false ∧
      l'.sm.lap_samples = loop.sm.lap_samples ∧
      l'.sm.current_lap = loop.sm.current_lap ∧
      l'.sm.state = (if loop.sm.state = SessionState.idle then
        SessionState.detected else loop.sm.state) ∧
      (loop.sm.state ≠ SessionState.error →
        l'.sm.state ≠ SessionState.error) := by
  unfold TelemetryLoop.run_once
  simp only [hrun, hp, Bool.not_true, Bool.false_eq_true, if_false,
    Bool.not_false, if_true]
  refine ⟨_, _, rfl, rfl, ?_, ?_, ?_, ?_⟩ <;>
    by_cases hst : loop.sm.state = SessionState.idle <;>
      simp [SessionManager.detect, hst]

/-- C8 witness: `run_once_telemetry_unavailable_skips_sampling` on a
running, unpaused loop in the Detected state with an empty buffer. -/
theorem run_once_telemetry_unavailable_skips_sampling_witness :
    ∃ l' st,
      TelemetryLoop.run_once
        { running := true, paused := false, has_callback := true,
          sm := { state := SessionState.detected, current_lap := 0,
                  current_session_id := none, lap_samples := [] } }
        true false (Except.ok { lap := some 1 }) "sid" = some (l', st, []) ∧
      st.telemetry_available = false ∧
      l'.sm.lap_samples = [] ∧
      l'.sm.current_lap = 0 ∧
      l'.sm.state = (if SessionState.detected = SessionState.idle then
        SessionState.detected else SessionState.detected) ∧
      (SessionState.detected ≠ SessionState.error →
        l'.sm.state ≠ SessionState.error) :=
  run_once_telemetry_unavailable_skips_sampling
    { running := true, paused := false, has_callback := true,
      sm := { state := SessionState.detected, current_lap := 0,
              current_session_id := none, lap_samples := [] } }
    (Except.ok { lap := some 1 }) "sid" rfl rfl

/-- A concrete paused loop: `pause()` sets the paused flag and moves the
session state to Paused. -/
def pausedLoop : TelemetryLoop :=
  { running := true, paused := true, has_callback := true,
    sm := { state := SessionState.paused, current_lap := 2,
            current_session_id := some "sid",
            lap_samples := [{ lap := some 2 }] } }

/-- C5 counterexample: on a paused tick with the process present and the
telemetry source available (`is_available()` would return true), the
returned status still reports `telemetry_available = false` — the
availability check is skipped while paused, not performed and
reflected. -/
theorem run_once_paused_telemetry_check_counterexample :
    (TelemetryLoop.run_once pausedLoop true true
        (Except.ok { lap := some 2 }) "sid").map
      (fun r => (r.2.1.process_detected, r.2.1.telemetry_available)) =
      some (true, false) := by
  decide

/-- C5 amended: on every tick taken while the loop is paused and the
target process is present, no telemetry sample is read or appended (the
buffer and current lap are unchanged and no callback fires, whatever the
availability and read outcome would have been); the process-presence
check is still performed and reflected in the status, but the
telemetry-availability check is skipped and the status reports
`telemetry_available = false` regardless of actual availability. -/
theorem run_once_paused_skips_telemetry_check (loop : TelemetryLoop)
    (avail : Bool) (rr : Except String Telemetry) (sid : String)
    (hrun : loop.running = true) (hp : loop.paused = true) :
    ∃ l' st, loop.run_once true avail rr sid = some (l', st, []) ∧
      st.process_detected = true ∧
      st.telemetry_available = false ∧
      l'.sm.lap_samples = loop.sm.lap_samples ∧
      l'.sm.current_lap = loop.sm.current_lap := by
  unfold TelemetryLoop.run_once
  simp only [hrun, hp, Bool.not_true, Bool.false_eq_true, if_false,
    Bool.not_false, if_true]
  refine ⟨_, _, rfl, rfl, rfl, ?_, ?_⟩ <;>
    by_cases hst : loop.sm.state = SessionState.idle <;>
      simp [SessionManager.detect, hst]

/-- C5 amended witness: `run_once_paused_skips_telemetry_check` on the
concrete paused loop with telemetry available. -/
theorem run_once_paused_skips_telemetry_check_witness :
    ∃ l' st,
      TelemetryLoop.run_once pausedLoop true true
        (Except.ok { lap := some 2 }) "sid" = some (l', st, []) ∧
      st.process_detected = true ∧
      st.telemetry_available = false ∧
      l'.sm.lap_samples = pausedLoop.sm.lap_samples ∧
      l'.sm.current_lap = pausedLoop.sm.current_lap :=
  run_once_paused_skips_telemetry_check pausedLoop true
    (Except.ok { lap := some 2 }) "sid" rfl rfl

theorem run_once_preserves_flags (loop : TelemetryLoop) (pr avail : Bool)
    (rr : Except String Telemetry) (sid : String) (l' : TelemetryLoop)
    (st : TickStatus) (calls : List CallbackCall)
    (h : loop.run_once pr avail rr sid = some (l', st, calls)) :
    l'.running = loop.running ∧ l'.paused = loop.paused ∧
      l'.has_callback = loop.has_callback := by
  unfold TelemetryLoop.run_once at h
  repeat' split at h
  all_goals
    first
      | (simp only [Option.some.injEq, Prod.mk.injEq] at h
         obtain ⟨h1, h2, h3⟩ := h
         subst h1
         exact ⟨rfl, rfl, rfl⟩)
      | exact Option.noConfusion h

theorem run_once_isSome_of_running (loop : TelemetryLoop) (pr avail : Bool)
    (rr : Except String Telemetry) (sid : String)
    (hrun : loop.running = true) :
    (loop.run_once pr avail rr sid).isSome := by
  unfold TelemetryLoop.run_once
  simp only [hrun, Bool.not_true, Bool.false_eq_true, if_false]
  repeat' split
  all_goals rfl

theorem run_steps_length (inputs : List TickInput) :
    ∀ loop : TelemetryLoop, loop.running = true →
      (loop.run_steps inputs).2.length = inputs.length := by
  induction inputs with
  | nil =>
      intro loop _
      rfl
  | cons i rest ih =>
      intro loop hrun
      unfold TelemetryLoop.run_steps
      cases h : loop.run_once i.process_running i.telemetry_is_available
          i.read_result i.fresh_session_id with
      | none =>
          exfalso
          have := run_once_isSome_of_running loop i.process_running
            i.telemetry_is_available i.read_result i.fresh_session_id hrun
          rw [h] at this
          exact absurd this (by simp)
      | some r =>
          obtain ⟨l', st, calls⟩ := r
          have hr := (run_once_preserves_flags loop i.process_running
            i.telemetry_is_available i.read_result i.fresh_session_id
            l' st calls h).1
          have htail := ih l' (by rw [hr, hrun])
          simp [htail]

/-- C7: if reading the telemetry sample raises during a tick, the
exception is caught inside that tick: the session state is set to Error,
the error message is recorded in the returned status, `run_once` still
returns a status normally (no callback fires), the loop is still running,
and the enclosing `run` loop keeps polling — it still processes every
subsequent scheduled tick. -/
theorem run_once_read_error_recorded (loop : TelemetryLoop) (sid e : String)
    (hrun : loop.running = true) (hp : loop.paused = false) :
    ∃ l' st, loop.run_once true true (Except.error e) sid = some (l', st, []) ∧
      l'.sm.state = SessionState.error ∧
      st.state = SessionState.error ∧
      st.error = some e ∧
      l'.running = true ∧
      ∀ inputs : List TickInput,
        (l'.run_steps inputs).2.length = inputs.length := by
  have key : ∃ l' st,
      loop.run_once true true (Except.error e) sid = some (l', st, []) ∧
      l'.sm.state = SessionState.error ∧
      st.state = SessionState.error ∧
      st.error = some e := by
    unfold TelemetryLoop.run_once
    simp only [hrun, hp, Bool.not_true, Bool.false_eq_true, if_false,
      Bool.not_false, if_true]
    exact ⟨_, _, rfl, rfl, rfl, rfl⟩
  obtain ⟨l', st, heq, h1, h2, h3⟩ := key
  have hflags := (run_once_preserves_flags loop true true (Except.error e)
    sid l' st [] heq).1
  have hrun' : l'.running = true := by rw [hflags, hrun]
  exact ⟨l', st, heq, h1, h2, h3, hrun',
    fun inputs => run_steps_length inputs l' hrun'⟩

/-- C7 witness: `run_once_read_error_recorded` on a concrete logging loop
(the claim's universally quantified tick schedule instantiated at a
two-tick schedule inside the theorem's conclusion). -/
theorem run_once_read_error_recorded_witness :
    ∃ l' st,
      TelemetryLoop.run_once
        { running := true, paused := false, has_callback := true,
          sm := { state := SessionState.logging, current_lap := 4,
                  current_session_id := some "s",
                  lap_samples := [{ lap := some 4 }] } }
        true true (Except.error "read failed") "sid" = some (l', st, []) ∧
      l'.sm.state = SessionState.error ∧
      st.state = SessionState.error ∧
      st.error = some "read failed" ∧
      l'.running = true ∧
      ∀ inputs : List TickInput,
        (l'.run_steps inputs).2.length = inputs.length :=
  run_once_read_error_recorded
    { running := true, paused := false, has_callback := true,
      sm := { state := SessionState.logging, current_lap := 4,
              current_session_id := some "s",
              lap_samples := [{ lap := some 4 }] } }
    "sid" "read failed" rfl rfl

theorem get_lap_summary_congr (a b : SessionManager)
    (h1 : a.lap_samples = b.lap_samples) (h2 : a.current_lap = b.current_lap) :
    a.get_lap_summary = b.get_lap_summary := by
  unfold SessionManager.get_lap_summary
  rw [h1, h2]

theorem detect_lap_samples (sm : SessionManager) :
    sm.detect.lap_samples = sm.lap_samples := by
  unfold SessionManager.detect
  split <;> rfl

theorem detect_current_lap (sm : SessionManager) :
    sm.detect.current_lap = sm.current_lap := by
  unfold SessionManager.detect
  split <;> rfl

theorem start_logging_lap_samples (sm : SessionManager) (sid : String) :
    (sm.start_logging sid).lap_samples = sm.lap_samples := by
  unfold SessionManager.start_logging
  split <;> rfl

theorem start_logging_current_lap (sm : SessionManager) (sid : String) :
    (sm.start_logging sid).current_lap = sm.current_lap := by
  unfold SessionManager.start_logging
  split <;> rfl

theorem handle_sample_spec (loop : TelemetryLoop) (sm : SessionManager)
    (status : TickStatus) (t : Telemetry)
    (hsamp : sm.lap_samples = loop.sm.lap_samples)
    (hlap : sm.current_lap = loop.sm.current_lap)
    (hst : status.lap_completed = false) :
    ((loop.handle_sample sm status t).2.2 = [] ∨
      ((loop.handle_sample sm status t).2.2 =
        [{ lap_data := loop.sm.lap_samples,
           lap_summary := SessionManager.get_lap_summary
             { loop.sm with current_lap := t.lap.getD 0 } }] ∧
        loop.sm.lap_samples ≠ [] ∧
        (loop.handle_sample sm status t).2.1.lap_completed = true ∧
        t.lap.getD 0 ≠ loop.sm.current_lap ∧ 0 < loop.sm.current_lap)) ∧
    ((loop.handle_sample sm status t).2.1.lap_completed = true →
      (loop.handle_sample sm status t).1.lap_samples = [t]) := by
  have hsummary : (sm.update t).1.get_lap_summary =
      SessionManager.get_lap_summary
        { loop.sm with current_lap := t.lap.getD 0 } := by
    refine get_lap_summary_congr _ _ ?_ rfl
    simpa [SessionManager.update] using hsamp
  unfold TelemetryLoop.handle_sample
  by_cases hlc : (sm.update t).2.lap_completed = true
  · have hne : t.lap.getD 0 ≠ loop.sm.current_lap ∧
        0 < loop.sm.current_lap := by
      rw [SessionManager.update] at hlc
      simp only [decide_eq_true_eq] at hlc
      rw [hlap] at hlc
      exact hlc
    by_cases hcb :
        (loop.has_callback && decide (0 < (sm.update t).1.get_lap_data.length)) =
          true
    · constructor
      · refine Or.inr ⟨?_, ?_, ?_, hne.1, hne.2⟩
        · simp only [hlc, if_true, hcb]
          simp [SessionManager.get_lap_data, SessionManager.update, hsamp,
            hsummary]
          exact get_lap_summary_congr _ _ rfl rfl
        · have := (Bool.and_eq_true _ _).mp hcb
          have hpos := of_decide_eq_true this.2
          rw [SessionManager.get_lap_data, SessionManager.update] at hpos
          simp only at hpos
          rw [hsamp] at hpos
          exact List.ne_nil_of_length_pos hpos
        · simp [hlc]
      · intro _
        simp [hlc, SessionManager.clear_lap_buffer, SessionManager.add_sample]
    · constructor
      · refine Or.inl ?_
        simp [hlc, hcb]
      · intro _
        simp [hlc, SessionManager.clear_lap_buffer, SessionManager.add_sample]
  · constructor
    · exact Or.inl (by simp [hlc])
    · intro habs
      simp only [hlc, if_false, Bool.false_eq_true] at habs
      rw [hst] at habs
      exact absurd habs (by simp)

theorem run_once_completion_calls (loop : TelemetryLoop) (pr avail : Bool)
    (rr : Except String Telemetry) (sid : String) (l' : TelemetryLoop)
    (st : TickStatus) (calls : List CallbackCall)
    (h : loop.run_once pr avail rr sid = some (l', st, calls)) :
    (calls = [] ∨ ∃ t, rr = Except.ok t ∧
      calls = [{ lap_data := loop.sm.lap_samples,
                 lap_summary := SessionManager.get_lap_summary
                   { loop.sm with current_lap := t.lap.getD 0 } }] ∧
      loop.sm.lap_samples ≠ [] ∧
      st.lap_completed = true ∧
      t.lap.getD 0 ≠ loop.sm.current_lap ∧ 0 < loop.sm.current_lap) ∧
    (st.lap_completed = true → ∀ t, rr = Except.ok t →
      l'.sm.lap_samples = [t]) := by
  unfold TelemetryLoop.run_once at h
  cases hrb : loop.running with
  | false =>
      rw [hrb] at h
      simp at h
  | true =>
      rw [hrb] at h
      simp only [Bool.not_true, Bool.false_eq_true, if_false] at h
      cases pr with
      | false =>
          simp only [Bool.not_false, if_true] at h
          simp only [Option.some.injEq, Prod.mk.injEq] at h
          obtain ⟨h1, h2, h3⟩ := h
          subst h1
          subst h2
          subst h3
          exact ⟨Or.inl rfl, fun habs => by simp at habs⟩
      | true =>
          simp only [Bool.not_true, Bool.false_eq_true, if_false] at h
          cases hpb : loop.paused with
          | true =>
              rw [hpb] at h
              simp only [if_true] at h
              simp only [Option.some.injEq, Prod.mk.injEq] at h
              obtain ⟨h1, h2, h3⟩ := h
              subst h1
              subst h2
              subst h3
              exact ⟨Or.inl rfl, fun habs => by simp at habs⟩
          | false =>
              rw [hpb] at h
              simp only [Bool.false_eq_true, if_false] at h
              cases avail with
              | false =>
                  simp only [Bool.not_false, if_true] at h
                  simp only [Option.some.injEq, Prod.mk.injEq] at h
                  obtain ⟨h1, h2, h3⟩ := h
                  subst h1
                  subst h2
                  subst h3
                  exact ⟨Or.inl rfl, fun habs => by simp at habs⟩
              | true =>
                  simp only [Bool.not_true, Bool.false_eq_true, if_false] at h
                  cases rr with
                  | error e =>
                      simp only [Option.some.injEq, Prod.mk.injEq] at h
                      obtain ⟨h1, h2, h3⟩ := h
                      subst h1
                      subst h2
                      subst h3
                      exact ⟨Or.inl rfl, fun habs => by simp at habs⟩
                  | ok t =>
                      simp only [Option.some.injEq, Prod.mk.injEq] at h
                      obtain ⟨h1, h2, h3⟩ := h
                      subst h1
                      subst h2
                      subst h3
                      have hspec := handle_sample_spec loop
                        (loop.sm.detect.start_logging sid)
                        { state := loop.sm.state, process_detected := true,
                          telemetry_available := true,
                          lap := loop.sm.current_lap,
                          samples_buffered := loop.sm.lap_samples.length,
                          lap_completed := false, error := none } t
                        (by rw [start_logging_lap_samples,
                          detect_lap_samples])
                        (by rw [start_logging_current_lap,
                          detect_current_lap])
                        rfl
                      refine ⟨?_, ?_⟩
                      · rcases hspec.1 with hnil | ⟨hcalls, hne, hlc, hd⟩
                        · exact Or.inl hnil
                        · exact Or.inr ⟨t, rfl, hcalls, hne, hlc, hd⟩
                      · intro hlc t' hrr
                        injection hrr with ht
                        subst ht
                        exact hspec.2 hlc

/-- C4: on every tick, the callback is invoked at most once; it is
invoked only when a lap boundary was signalled during the tick and the
buffered lap data is non-empty; when invoked it receives the buffered lap
data and the lap summary; and when a boundary was signalled, after the
completion handling the buffer is cleared (so the tick ends with only the
fresh sample buffered) whether or not the callback fired. -/
theorem run_once_callback_discipline (loop : TelemetryLoop) (pr avail : Bool)
    (rr : Except String Telemetry) (sid : String) (l' : TelemetryLoop)
    (st : TickStatus) (calls : List CallbackCall)
    (h : loop.run_once pr avail rr sid = some (l', st, calls)) :
    calls.length ≤ 1 ∧
    (∀ c ∈ calls, st.lap_completed = true ∧ c.lap_data ≠ [] ∧
      c.lap_data = loop.sm.lap_samples ∧
      ∃ t, rr = Except.ok t ∧
        c.lap_summary = SessionManager.get_lap_summary
          { loop.sm with current_lap := t.lap.getD 0 }) ∧
    (st.lap_completed = true → ∀ t, rr = Except.ok t →
      l'.sm.lap_samples = [t]) := by
  obtain ⟨hd, hbuf⟩ :=
    run_once_completion_calls loop pr avail rr sid l' st calls h
  rcases hd with hnil | ⟨t, hrr, hcalls, hne, hlc, hneq, hpos⟩
  · subst hnil
    exact ⟨by simp, by simp, hbuf⟩
  · subst hcalls
    refine ⟨by simp, ?_, hbuf⟩
    intro c hcmem
    rw [List.mem_singleton] at hcmem
    subst hcmem
    exact ⟨hlc, hne, rfl, t, hrr, rfl⟩

/-- Concrete completing tick for the callback-discipline witnesses: a
logging loop on lap 1 with one buffered sample reads a sample of lap 2. -/
def loopW : TelemetryLoop :=
  { running := true, paused := false, has_callback := true,
    sm := { state := SessionState.logging, current_lap := 1,
            current_session_id := some "s",
            lap_samples := [{ lap := some 1, lap_time := some 10 }] } }

/-- The sample read during the witness tick: lap 2. -/
def tW : Telemetry := { lap := some 2, lap_time := some 100 }

/-- Loop state after the witness tick. -/
def loopW' : TelemetryLoop :=
  { running := true, paused := false, has_callback := true,
    sm := { state := SessionState.logging, current_lap := 2,
            current_session_id := some "s",
            lap_samples := [tW] } }

/-- Status returned by the witness tick. -/
def stW : TickStatus :=
  { state := SessionState.logging, process_detected := true,
    telemetry_available := true, lap := 2, samples_buffered := 1,
    lap_completed := true, error := none }

/-- Lap summary handed to the callback during the witness tick. -/
def lsW : LapSummary :=
  { lap := 2, lap_time := 10, sector1_time := 0, sector2_time := 0,
    sector3_time := 0, samples_count := 1 }

/-- The one callback invocation of the witness tick. -/
def cW : CallbackCall :=
  { lap_data := [{ lap := some 1, lap_time := some 10 }],
    lap_summary := some lsW }

/-- C4 witness: `run_once_callback_discipline` on the concrete tick that
completes lap 1 and fires the callback once with the one buffered
sample. -/
theorem run_once_callback_discipline_witness :
    ([cW].length ≤ 1) ∧
    (∀ c ∈ [cW], stW.lap_completed = true ∧ c.lap_data ≠ [] ∧
      c.lap_data = loopW.sm.lap_samples ∧
      ∃ t, (Except.ok tW : Except String Telemetry) = Except.ok t ∧
        c.lap_summary = SessionManager.get_lap_summary
          { loopW.sm with current_lap := t.lap.getD 0 }) ∧
    (stW.lap_completed = true →
      ∀ t, (Except.ok tW : Except String Telemetry) = Except.ok t →
        loopW'.sm.lap_samples = [t]) :=
  run_once_callback_discipline loopW true true (Except.ok tW) "sid"
    loopW' stW [cW] (by decide)

/-- C10: whenever a lap completion is signalled during a tick, the lap
summary handed to the callback carries a `lap` field equal to the newly
started lap number — not the number of the lap that was just completed
(the stored lap at the start of the tick) — because
`SessionManager.update` overwrites `current_lap` with the incoming
sample's lap before `get_lap_summary` reads it. -/
theorem completed_lap_summary_reports_new_lap (loop : TelemetryLoop)
    (pr avail : Bool) (rr : Except String Telemetry) (sid : String)
    (l' : TelemetryLoop) (st : TickStatus) (calls : List CallbackCall)
    (c : CallbackCall) (ls : LapSummary)
    (h : loop.run_once pr avail rr sid = some (l', st, calls))
    (hc : c ∈ calls) (hs : c.lap_summary = some ls) :
    ∃ t, rr = Except.ok t ∧ ls.lap = t.lap.getD 0 ∧
      ls.lap ≠ loop.sm.current_lap := by
  obtain ⟨hd, _⟩ :=
    run_once_completion_calls loop pr avail rr sid l' st calls h
  rcases hd with hnil | ⟨t, hrr, hcalls, hne, hlc, hneq, hpos⟩
  · subst hnil
    simp at hc
  · subst hcalls
    rw [List.mem_singleton] at hc
    subst hc
    simp only [SessionManager.get_lap_summary] at hs
    split at hs
    · exact Option.noConfusion hs
    · injection hs with h4
      subst h4
      exact ⟨t, hrr, rfl, hneq⟩

/-- C10 witness: `completed_lap_summary_reports_new_lap` on the concrete
completing tick of lap 1 → 2: the summary's lap field is 2, the lap just
begun, not 1. -/
theorem completed_lap_summary_reports_new_lap_witness :
    ∃ t, (Except.ok tW : Except String Telemetry) = Except.ok t ∧
      lsW.lap = t.lap.getD 0 ∧ lsW.lap ≠ loopW.sm.current_lap :=
  completed_lap_summary_reports_new_lap loopW true true (Except.ok tW)
    "sid" loopW' stW [cW] cW lsW (by decide) (by decide) (by decide)

end Monitor
